import Mathlib

/-!
Verification of the volumetric-data engine of the `advanced-3d-mri-viewer`
repository (C++, Qt + VTK + ITK), as a shallow embedding in Lean 4.

The embedding follows `src/ViewerCore.cpp`, `src/ExportWorker.cpp` and the
`MainWindow` interactor/export code.  Machine doubles are modelled as exact
rationals (`ℚ`), C++ `int` as `ℤ`, unsigned mask voxels as `ℕ`.  External
collaborators (the NIfTI reader, the ITK Otsu threshold computation, the VTK
renderer) are passed in as explicit parameters; the decision structure of the
repository code itself is embedded faithfully.
-/

/-! ## Data model (ViewerCore::Impl) -/

/-- The in-memory MRI volume: dimensions, voxel spacing in mm, and the flat
scalar buffer (floats, modelled as rationals). -/
structure Volume where
  dims : ℕ × ℕ × ℕ
  spacing : ℚ × ℚ × ℚ
  data : List ℚ
deriving DecidableEq

/-- The in-memory label mask: dimensions, voxel spacing in mm, and the flat
buffer of unsigned-short labels. -/
structure MaskImage where
  dims : ℕ × ℕ × ℕ
  spacing : ℚ × ℚ × ℚ
  data : List ℕ
deriving DecidableEq

/-- The pimpl state of `ViewerCore`: the (nullable) MRI image, the (nullable)
mask image, and the path of the last loaded MRI (empty = none loaded). -/
structure CoreState where
  mriImage : Option Volume
  maskImage : Option MaskImage
  mriPath : String
deriving DecidableEq

/-! ## Label volumetrics (ViewerCore::computeLabelVolumes) -/

/-- One `counts[val]++` step of the histogram accumulation. -/
def bumpCount (counts : ℕ → ℕ) (v : ℕ) : ℕ → ℕ :=
  fun l => if l = v then counts l + 1 else counts l

/-- The `std::unordered_map<int,size_t> counts` histogram built by the loop in
`computeLabelVolumes`: a label is a key of the map iff its count is nonzero. -/
def tallyCounts (data : List ℕ) : ℕ → ℕ :=
  data.foldl bumpCount (fun _ => 0)

/-- Embedding of `ViewerCore::computeLabelVolumes`.  The returned
`std::map<int,double>` is modelled as a partial function from labels to
volumes in cm³: `none` means the label is not a key of the result.  The source
skips label 0 and inserts `count * sx*sy*sz / 1000` for every other label that
occurs in the mask; with no mask loaded the result is empty. -/
def computeLabelVolumes (st : CoreState) : ℕ → Option ℚ :=
  match st.maskImage with
  | none => fun _ => none
  | some m =>
    let counts := tallyCounts m.data
    let voxVol : ℚ := m.spacing.1 * m.spacing.2.1 * m.spacing.2.2
    fun label =>
      if label = 0 then none
      else if counts label = 0 then none
      else some ((counts label : ℚ) * voxVol / 1000)

/-- The histogram fold agrees with `List.count`. -/
theorem tallyCounts_foldl (data : List ℕ) (f : ℕ → ℕ) (l : ℕ) :
    data.foldl bumpCount f l = f l + data.count l := by
  induction data generalizing f with
  | nil => simp
  | cons v rest ih =>
    simp only [List.foldl_cons, List.count_cons, ih]
    by_cases h : l = v
    · subst h
      simp [bumpCount]
      omega
    · have hvl : ¬ (v = l) := fun hh => h hh.symm
      simp [bumpCount, h, hvl]

theorem tallyCounts_eq_count (data : List ℕ) (l : ℕ) :
    tallyCounts data l = data.count l := by
  simpa using tallyCounts_foldl data (fun _ => 0) l

/-- The 64×64×40 example mask of the spec: spacing (1,1,2.5) mm, 1000 voxels
of label 1, 500 voxels of label 2, the rest background. -/
def exampleMask : MaskImage :=
  { dims := (64, 64, 40)
    spacing := (1, 1, 5/2)
    data := List.replicate 1000 1 ++ List.replicate 500 2
              ++ List.replicate (64*64*40 - 1500) 0 }

/-- Core state holding the example mask. -/
def exampleMaskState : CoreState :=
  { mriImage := none, maskImage := some exampleMask, mriPath := "" }

theorem exampleMask_count_one : exampleMask.data.count 1 = 1000 := by
  show (List.replicate 1000 1 ++ List.replicate 500 2
          ++ List.replicate (64*64*40 - 1500) 0).count 1 = 1000
  rw [List.count_append, List.count_append, List.count_replicate,
    List.count_replicate, List.count_replicate]
  norm_num

theorem exampleMask_count_two : exampleMask.data.count 2 = 500 := by
  show (List.replicate 1000 1 ++ List.replicate 500 2
          ++ List.replicate (64*64*40 - 1500) 0).count 2 = 500
  rw [List.count_append, List.count_append, List.count_replicate,
    List.count_replicate, List.count_replicate]
  norm_num

theorem exampleMask_count_other (l : ℕ) (h1 : l ≠ 1) (h2 : l ≠ 2) (h0 : l ≠ 0) :
    exampleMask.data.count l = 0 := by
  show (List.replicate 1000 1 ++ List.replicate 500 2
          ++ List.replicate (64*64*40 - 1500) 0).count l = 0
  rw [List.count_append, List.count_append, List.count_replicate,
    List.count_replicate, List.count_replicate]
  have b1 : ((1 : ℕ) == l) = false := by
    simpa using fun hh => h1 hh.symm
  have b2 : ((2 : ℕ) == l) = false := by
    simpa using fun hh => h2 hh.symm
  have b0 : ((0 : ℕ) == l) = false := by
    simpa using fun hh => h0 hh.symm
  simp [b1, b2, b0]

/-- C1: `computeLabelVolumes` is a reference map: label 0 is never a key; a
non-zero label is a key iff it occurs in the mask, with value
`count * sx*sy*sz / 1000` cm³; with no mask loaded (or an all-background mask)
the result is empty; and on the spec's 64×64×40 example with spacing
(1,1,2.5) mm, 1000 voxels of label 1 and 500 of label 2 the result is
exactly `{1 ↦ 2.5, 2 ↦ 1.25}`. -/
theorem computeLabelVolumes_spec :
    (∀ st : CoreState, computeLabelVolumes st 0 = none) ∧
    (∀ (st : CoreState) (m : MaskImage), st.maskImage = some m →
      ∀ l : ℕ, l ≠ 0 → m.data.count l ≠ 0 →
        computeLabelVolumes st l =
          some ((m.data.count l : ℚ)
            * (m.spacing.1 * m.spacing.2.1 * m.spacing.2.2) / 1000)) ∧
    (∀ (st : CoreState) (m : MaskImage), st.maskImage = some m →
      ∀ l : ℕ, m.data.count l = 0 → computeLabelVolumes st l = none) ∧
    (∀ st : CoreState, st.maskImage = none →
      ∀ l : ℕ, computeLabelVolumes st l = none) ∧
    (computeLabelVolumes exampleMaskState 1 = some (5/2)
      ∧ computeLabelVolumes exampleMaskState 2 = some (5/4)
      ∧ ∀ l : ℕ, l ≠ 1 → l ≠ 2 → computeLabelVolumes exampleMaskState l = none) := by
  refine ⟨?_, ?_, ?_, ?_, ?_, ?_, ?_⟩
  · intro st
    cases h : st.maskImage <;> simp [computeLabelVolumes, h]
  · intro st m hm l hl hcnt
    simp [computeLabelVolumes, hm, hl, tallyCounts_eq_count, hcnt]
  · intro st m hm l hcnt
    rcases Nat.eq_zero_or_pos l with h0 | h0
    · simp [computeLabelVolumes, hm, h0]
    · have hl : l ≠ 0 := Nat.pos_iff_ne_zero.mp h0
      simp [computeLabelVolumes, hm, hl, tallyCounts_eq_count, hcnt]
  · intro st hm l
    simp [computeLabelVolumes, hm]
  · have h1 : exampleMask.data.count 1 ≠ 0 := by rw [exampleMask_count_one]; omega
    simp [computeLabelVolumes, exampleMaskState, tallyCounts_eq_count,
      exampleMask_count_one]
    norm_num [exampleMask]
  · simp [computeLabelVolumes, exampleMaskState, tallyCounts_eq_count,
      exampleMask_count_two]
    norm_num [exampleMask]
  · intro l hl1 hl2
    rcases Nat.eq_zero_or_pos l with h0 | h0
    · simp [computeLabelVolumes, exampleMaskState, h0]
    · have hl0 : l ≠ 0 := Nat.pos_iff_ne_zero.mp h0
      simp [computeLabelVolumes, exampleMaskState, hl0, tallyCounts_eq_count,
        exampleMask_count_other l hl1 hl2 hl0]

/-- Witness for C1: the occurring-label clause evaluated on the example mask at
label 1. -/
theorem computeLabelVolumes_spec_witness :
    computeLabelVolumes exampleMaskState 1 =
      some ((exampleMask.data.count 1 : ℚ)
        * (exampleMask.spacing.1 * exampleMask.spacing.2.1
            * exampleMask.spacing.2.2) / 1000) := by
  exact computeLabelVolumes_spec.2.1 exampleMaskState exampleMask rfl 1
    (by decide) (by rw [exampleMask_count_one]; omega)

/-! ## Slice extraction (ViewerCore::extractSlice / extractMaskSlice) -/

/-- A 4×4 reslice-axes matrix with integer entries (the source only ever
stores 0, ±1 and the integer slice index in it). -/
abbrev Mat4 := Fin 4 → Fin 4 → ℤ

/-- The matrix after `matrix->Identity()`. -/
def identityMatrix4 : Mat4 := fun i j => if i = j then 1 else 0

/-- One `matrix->SetElement(r, c, v)` call. -/
def setElement (m : Mat4) (r c : Fin 4) (v : ℤ) : Mat4 :=
  fun i j => if i = r ∧ j = c then v else m i j

/-- Embedding of the reslice-axes construction shared by
`ViewerCore::extractSlice` and `ViewerCore::extractMaskSlice`: identity, then
the listed `SetElement` calls per view name (an unrecognized view name leaves
the identity). -/
def resliceAxes (viewName : String) (index : ℤ) : Mat4 :=
  if viewName = "axial" then
    setElement identityMatrix4 2 3 index
  else if viewName = "coronal" then
    setElement (setElement (setElement (setElement identityMatrix4
      1 1 0) 1 2 (-1)) 2 1 1) 2 3 index
  else if viewName = "sagittal" then
    setElement (setElement (setElement (setElement identityMatrix4
      0 0 0) 0 1 1) 1 0 (-1)) 2 3 index
  else identityMatrix4

/-- Embedding of `ViewerCore::getRepresentativeSliceIndex`: central indices
(axial, coronal, sagittal) from the MRI dimensions, all zero with no MRI. -/
def getRepresentativeSliceIndex (st : CoreState) : ℤ × ℤ × ℤ :=
  match st.mriImage with
  | none => (0, 0, 0)
  | some vol =>
    ((if vol.dims.2.2 > 0 then (vol.dims.2.2 : ℤ) / 2 else 0),
     (if vol.dims.2.1 > 0 then (vol.dims.2.1 : ℤ) / 2 else 0),
     (if vol.dims.1 > 0 then (vol.dims.1 : ℤ) / 2 else 0))

/-- Index resolution in the extractors: `-1` selects the representative index
of the requested view (defaulting to axial for unknown names). -/
def resolveSliceIndex (viewName : String) (index a c s : ℤ) : ℤ :=
  if index = -1 then
    if viewName = "axial" then a
    else if viewName = "coronal" then c
    else if viewName = "sagittal" then s
    else a
  else index

/-- The reslice invocation produced by an extractor: the source image handed
to `vtkImageReslice::SetInputData` plus the reslice-axes matrix.  The actual
resampling is performed by VTK (an external collaborator). -/
structure SliceRequest (Img : Type) where
  source : Img
  axes : Mat4

/-- Embedding of `ViewerCore::extractSlice`: `nullptr` (here `none`) with no
MRI loaded; otherwise the reslice request for the resolved index.  The source
performs no range check on `index`. -/
def extractSlice (st : CoreState) (viewName : String) (index : ℤ) :
    Option (SliceRequest Volume) :=
  match st.mriImage with
  | none => none
  | some vol =>
    let rep := getRepresentativeSliceIndex st
    let idx := resolveSliceIndex viewName index rep.1 rep.2.1 rep.2.2
    some ⟨vol, resliceAxes viewName idx⟩

/-- Embedding of `ViewerCore::extractMaskSlice` (representative indices are
still taken from the MRI image, as in the source). -/
def extractMaskSlice (st : CoreState) (viewName : String) (index : ℤ) :
    Option (SliceRequest MaskImage) :=
  match st.maskImage with
  | none => none
  | some m =>
    let rep := getRepresentativeSliceIndex st
    let idx := resolveSliceIndex viewName index rep.1 rep.2.1 rep.2.2
    some ⟨m, resliceAxes viewName idx⟩

/-- Helper to spell out a matrix row by row. -/
def mat4OfRows (r0 r1 r2 r3 : ℤ × ℤ × ℤ × ℤ) : Mat4 :=
  fun i j =>
    let row := if i = 0 then r0 else if i = 1 then r1 else if i = 2 then r2 else r3
    if j = 0 then row.1
    else if j = 1 then row.2.1
    else if j = 2 then row.2.2.1
    else row.2.2.2

/-- Modelled from the spec (for the refinement comparison of C3): the slice
basis §4.2 describes.  Columns are the output row axis, the output column
axis, their cross product as the plane normal, and the plane offset along the
orientation's own perpendicular axis: axial row=X col=Y offset Z=index;
coronal row=X col=−Z offset Y=index; sagittal row=Y col=−Z offset X=index. -/
def specSliceBasis (viewName : String) (index : ℤ) : Mat4 :=
  if viewName = "axial" then
    mat4OfRows (1,0,0,0) (0,1,0,0) (0,0,1,index) (0,0,0,1)
  else if viewName = "coronal" then
    mat4OfRows (1,0,0,0) (0,0,1,index) (0,-1,0,0) (0,0,0,1)
  else if viewName = "sagittal" then
    mat4OfRows (0,0,-1,index) (1,0,0,0) (0,-1,0,0) (0,0,0,1)
  else identityMatrix4

/-- C3: the claim fails on the code.  All three orientations write the slice
index into matrix element (2,3) — a translation along Z — so only the axial
basis offsets the cutting plane along its own perpendicular axis.  For
coronal the Y-offset entry (1,3) stays 0 while (2,3) = index; for sagittal
the X-offset entry (0,3) stays 0 while (2,3) = index, and element (1,1) is
never cleared, so the sagittal in-plane axes are (0,−1,0) and (1,1,0) rather
than row=Y, col=−Z. -/
theorem resliceAxes_offset_divergence :
    resliceAxes "axial" 1 = specSliceBasis "axial" 1
    ∧ resliceAxes "coronal" 1 1 3 = 0
    ∧ resliceAxes "coronal" 1 2 3 = 1
    ∧ resliceAxes "coronal" 1 ≠ specSliceBasis "coronal" 1
    ∧ resliceAxes "sagittal" 1 0 3 = 0
    ∧ resliceAxes "sagittal" 1 2 3 = 1
    ∧ resliceAxes "sagittal" 1 1 1 = 1
    ∧ resliceAxes "sagittal" 1 ≠ specSliceBasis "sagittal" 1 := by
  decide

/-- A loaded 4×4×4 volume used as concrete input. -/
def demoVolume : Volume :=
  { dims := (4, 4, 4), spacing := (1, 1, 1), data := List.replicate 64 0 }

/-- Core state with the demo volume loaded and no mask. -/
def demoVolumeState : CoreState :=
  { mriImage := some demoVolume, maskImage := none, mriPath := "demo.nii" }

/-- C4 counterexample: with a 4×4×4 volume loaded, `extractSlice` at the
out-of-range axial index 100 still returns a reslice request — the source has
no bounds check — refuting the claim that it fails with `IndexOutOfBounds`
and returns no slice. -/
theorem extractSlice_outOfRange_counterexample :
    (extractSlice demoVolumeState "axial" 100).isSome = true := by
  rfl

/-- C4 amended: the extractors detect only the missing-image condition.  With
no loaded volume (resp. mask) they return an absent result; with one loaded,
every explicit index — out of range or not — produces a reslice request
rather than an `IndexOutOfBounds` error. -/
theorem extractSlice_no_bounds_check :
    (∀ (st : CoreState) (view : String) (index : ℤ),
        st.mriImage = none → extractSlice st view index = none) ∧
    (∀ (st : CoreState) (view : String) (index : ℤ) (vol : Volume),
        st.mriImage = some vol → (extractSlice st view index).isSome = true) ∧
    (∀ (st : CoreState) (view : String) (index : ℤ),
        st.maskImage = none → extractMaskSlice st view index = none) ∧
    (∀ (st : CoreState) (view : String) (index : ℤ) (m : MaskImage),
        st.maskImage = some m → (extractMaskSlice st view index).isSome = true) := by
  refine ⟨?_, ?_, ?_, ?_⟩
  · intro st view index h
    simp [extractSlice, h]
  · intro st view index vol h
    simp [extractSlice, h]
  · intro st view index h
    simp [extractMaskSlice, h]
  · intro st view index m h
    simp [extractMaskSlice, h]

/-- Witness for C4's amended theorem: the no-volume clause and the loaded
clause, both at concrete states. -/
theorem extractSlice_no_bounds_check_witness :
    extractSlice { mriImage := none, maskImage := none, mriPath := "" } "axial" 0 = none
    ∧ (extractSlice demoVolumeState "coronal" 77).isSome = true :=
  ⟨extractSlice_no_bounds_check.1 _ "axial" 0 rfl,
   extractSlice_no_bounds_check.2.1 demoVolumeState "coronal" 77 demoVolume rfl⟩

/-! ## Surface extraction (ViewerCore::create3DMeshForLabel) -/

/-- Embedding of the `vtkImageThreshold` stage of `create3DMeshForLabel`.
For `labelValue < 0` the source calls `ThresholdByLower(1)` — in VTK, values
less than or equal to the threshold match — otherwise
`ThresholdBetween(labelValue, labelValue)`; matching voxels are replaced by
`InValue` 1, the rest by `OutValue` 0. -/
def thresholdIndicator (labelValue : ℤ) (v : ℕ) : ℕ :=
  if labelValue < 0 then
    if (v : ℤ) ≤ 1 then 1 else 0
  else
    if labelValue ≤ (v : ℤ) ∧ (v : ℤ) ≤ labelValue then 1 else 0

/-- The marching-cubes invocation produced by `create3DMeshForLabel`: the
binary indicator volume handed to `vtkMarchingCubes` and the iso-surface
level set by `mc->SetValue(0, 0.5)`.  The triangulation itself is VTK's. -/
structure MeshRequest where
  indicator : List ℕ
  isoValue : ℚ
deriving DecidableEq

/-- Embedding of `ViewerCore::create3DMeshForLabel`: `none` with no mask
loaded; otherwise the thresholded indicator volume with iso level 0.5. -/
def create3DMeshForLabel (st : CoreState) (labelValue : ℤ) : Option MeshRequest :=
  match st.maskImage with
  | none => none
  | some m => some ⟨m.data.map (thresholdIndicator labelValue), 1/2⟩

/-- Modelled from the spec (for the comparison in C2): the all-labels
indicator the claim describes — every voxel with value ≥ 1 is foreground. -/
def specIndicatorAll (v : ℕ) : ℕ := if 1 ≤ v then 1 else 0

/-- A small mask with voxels 0, 1 and 2. -/
def demoMask : MaskImage :=
  { dims := (3, 1, 1), spacing := (1, 1, 1), data := [0, 1, 2] }

/-- Core state with the demo mask loaded. -/
def demoMaskState : CoreState :=
  { mriImage := none, maskImage := some demoMask, mriPath := "" }

/-- C2: the all-labels indicator diverges from the claim at the failing input
`labelValue = -1`.  `ThresholdByLower(1)` selects values ≤ 1, so a background
voxel (0) becomes foreground and a label-2 voxel becomes background — the
opposite of the claimed "every voxel ≥ 1 foreground, only 0 excluded" and of
the source's own comment "render all labels by thresholding > 0 … values >=1".
The specific-label case and the 0.5 iso level do match the claim. -/
theorem create3DMeshForLabel_allLabels_divergence :
    thresholdIndicator (-1) 0 = 1
    ∧ thresholdIndicator (-1) 2 = 0
    ∧ specIndicatorAll 0 = 0
    ∧ specIndicatorAll 2 = 1
    ∧ create3DMeshForLabel demoMaskState (-1) = some ⟨[1, 1, 0], 1/2⟩
    ∧ (∀ l v : ℕ, thresholdIndicator (l : ℤ) v = if v = l then 1 else 0) := by
  refine ⟨rfl, rfl, rfl, rfl, rfl, ?_⟩
  intro l v
  simp only [thresholdIndicator]
  have hnot : ¬ ((l : ℤ) < 0) := by omega
  rw [if_neg hnot]
  by_cases h : v = l
  · subst h
    simp
  · have hc : ¬ ((l : ℤ) ≤ (v : ℤ) ∧ (v : ℤ) ≤ (l : ℤ)) := by
      intro hc2
      exact h (by omega)
    rw [if_neg hc, if_neg h]

/-! ## Multi-level segmentation (ViewerCore::runMultiOtsu) -/

/-- The per-voxel classification loop of `runMultiOtsu`: starting from label
0, walk the thresholds in order and set `lab = t+1` while the voxel value
exceeds threshold `t`, stopping at the first threshold not exceeded. -/
def labelScan (thresholds : List ℚ) (v : ℚ) : ℕ :=
  match thresholds with
  | [] => 0
  | t :: rest => if v > t then labelScan rest v + 1 else 0

/-- Embedding of `ViewerCore::runMultiOtsu`.  The intensities read back from
`mriPath` and the thresholds computed by ITK's `OtsuMultipleThresholdsImageFilter`
(external collaborators) are passed in as `fileVol` and `thresholds`; the
filter is configured with `nClasses - 1` thresholds and ITK returns them in
ascending order.  On success the mask image is replaced by the label image;
on either error path the state is returned untouched. -/
def runMultiOtsu (st : CoreState) (fileVol : Volume) (thresholds : List ℚ)
    (nClasses : ℤ) : CoreState × Option String :=
  if st.mriPath = "" then (st, some "No MRI loaded")
  else if nClasses < 2 then (st, some "nClasses must be >= 2")
  else
    let newMask : MaskImage :=
      ⟨fileVol.dims, fileVol.spacing, fileVol.data.map (labelScan thresholds)⟩
    ({ st with maskImage := some newMask }, none)

/-- The scan never exceeds the number of thresholds. -/
theorem labelScan_le_length (thresholds : List ℚ) (v : ℚ) :
    labelScan thresholds v ≤ thresholds.length := by
  induction thresholds with
  | nil => simp [labelScan]
  | cons t rest ih =>
    simp only [labelScan, List.length_cons]
    by_cases hv : v > t
    · rw [if_pos hv]
      omega
    · rw [if_neg hv]
      omega

/-- The scan is monotone in the voxel intensity. -/
theorem labelScan_mono (thresholds : List ℚ) (v w : ℚ) (h : v ≤ w) :
    labelScan thresholds v ≤ labelScan thresholds w := by
  induction thresholds with
  | nil => simp [labelScan]
  | cons t rest ih =>
    simp only [labelScan]
    by_cases hv : v > t
    · have hw : w > t := lt_of_lt_of_le hv h
      simp [hv, hw]
      omega
    · simp [hv]

/-- On an ascending threshold list the scan counts exactly the thresholds the
intensity exceeds. -/
theorem labelScan_eq_countP (thresholds : List ℚ) (v : ℚ)
    (hs : thresholds.Sorted (· ≤ ·)) :
    labelScan thresholds v = thresholds.countP (fun t => decide (t < v)) := by
  induction thresholds with
  | nil => simp [labelScan]
  | cons t rest ih =>
    rcases List.sorted_cons.mp hs with ⟨hmin, hrest⟩
    by_cases hv : t < v
    · have hstep : labelScan (t :: rest) v = labelScan rest v + 1 := by
        simp [labelScan, gt_iff_lt, hv]
      rw [hstep, ih hrest, List.countP_cons]
      simp [hv]
    · have hz : labelScan (t :: rest) v = 0 := by
        simp [labelScan, gt_iff_lt, hv]
      have hzero : rest.countP (fun s => decide (s < v)) = 0 := by
        rw [List.countP_eq_zero]
        intro s hsmem
        have hts : t ≤ s := hmin s hsmem
        simp only [decide_eq_true_eq]
        intro hlt
        exact hv (lt_of_le_of_lt hts hlt)
      rw [hz, List.countP_cons, hzero]
      simp [hv]

/-- C5: with an MRI loaded, `runMultiOtsu` rejects `nClasses < 2` with an
invalid-parameter error and leaves the state (in particular the mask)
unchanged; for `nClasses ≥ 2`, given the `nClasses - 1` ascending thresholds
returned by ITK, it installs a label mask assigning every voxel the number of
thresholds its intensity exceeds, so every label lies in `[0, nClasses-1]`
and labels are monotone in intensity. -/
theorem runMultiOtsu_spec (st : CoreState) (fileVol : Volume)
    (thresholds : List ℚ) (nClasses : ℤ)
    (hpath : st.mriPath ≠ "") :
    (nClasses < 2 →
      runMultiOtsu st fileVol thresholds nClasses
        = (st, some "nClasses must be >= 2")) ∧
    (2 ≤ nClasses → (thresholds.length : ℤ) = nClasses - 1 →
      thresholds.Sorted (· ≤ ·) →
      ∃ newMask : MaskImage,
        runMultiOtsu st fileVol thresholds nClasses
          = ({ st with maskImage := some newMask }, none)
        ∧ newMask.data = fileVol.data.map (labelScan thresholds)
        ∧ (∀ lab ∈ newMask.data, (lab : ℤ) ≤ nClasses - 1)
        ∧ (∀ v ∈ fileVol.data,
            labelScan thresholds v = thresholds.countP (fun t => decide (t < v)))
        ∧ (∀ v w : ℚ, v ≤ w →
            labelScan thresholds v ≤ labelScan thresholds w)) := by
  constructor
  · intro hlt
    simp [runMultiOtsu, hpath, hlt]
  · intro h2 hlen hsort
    have hnlt : ¬ (nClasses < 2) := by omega
    refine ⟨⟨fileVol.dims, fileVol.spacing, fileVol.data.map (labelScan thresholds)⟩,
      ?_, rfl, ?_, ?_, ?_⟩
    · simp [runMultiOtsu, hpath, hnlt]
    · intro lab hmem
      rcases List.mem_map.mp hmem with ⟨v, _, hveq⟩
      have hle : labelScan thresholds v ≤ thresholds.length :=
        labelScan_le_length thresholds v
      omega
    · intro v _
      exact labelScan_eq_countP thresholds v hsort
    · intro v w hvw
      exact labelScan_mono thresholds v w hvw

/-- Ascending demo thresholds. -/
theorem demoThresholds_sorted : ([1, 2] : List ℚ).Sorted (· ≤ ·) := by
  norm_num [List.sorted_cons]

/-- Witness for C5: the invalid-parameter clause at `nClasses = 1` and the
segmentation clause at `nClasses = 3` with thresholds `[1, 2]`, both on the
demo state. -/
theorem runMultiOtsu_spec_witness :
    (runMultiOtsu demoVolumeState demoVolume [] 1
      = (demoVolumeState, some "nClasses must be >= 2"))
    ∧ ∃ newMask : MaskImage,
        runMultiOtsu demoVolumeState demoVolume [1, 2] 3
          = ({ demoVolumeState with maskImage := some newMask }, none)
        ∧ newMask.data = demoVolume.data.map (labelScan [1, 2])
        ∧ (∀ lab ∈ newMask.data, (lab : ℤ) ≤ 3 - 1)
        ∧ (∀ v ∈ demoVolume.data,
            labelScan [1, 2] v = ([1, 2] : List ℚ).countP (fun t => decide (t < v)))
        ∧ (∀ v w : ℚ, v ≤ w → labelScan [1, 2] v ≤ labelScan [1, 2] w) :=
  ⟨(runMultiOtsu_spec demoVolumeState demoVolume [] 1 (by decide)).1 (by decide),
   (runMultiOtsu_spec demoVolumeState demoVolume [1, 2] 3 (by decide)).2
     (by decide) (by decide) demoThresholds_sorted⟩

/-! ## Batch export (ExportWorker::run) -/

/-- Environment of one `ExportWorker::run` invocation.  Snapshot helpers are
external collaborators (off-screen VTK rendering + PNG writing); what matters
for the control flow is only whether each call returns a non-empty path:
`mriLoaded` decides the 2D slice snapshots, `meshNonempty` the three 3D
overview snapshots, `labelMeshNonempty` the per-label snapshots.  `labels`
are the keys of `computeLabelVolumes()`; `pdfOk` is `painter.isActive()`. -/
structure ExportEnv where
  coreAvailable : Bool
  mriLoaded : Bool
  maskLoaded : Bool
  meshNonempty : Bool
  labels : List ℕ
  labelMeshNonempty : ℕ → Bool
  pdfOk : Bool

/-- A signal emitted by the worker. -/
inductive EEvent
  | progressEv (pct : ℤ) (msg : String)
  | finishedEv (ok : Bool) (msg : String)
deriving DecidableEq

/-- Where `run` returned. -/
inductive ExitStage
  | noCore
  | cancelBeforeCleanup
  | pdfFail
  | cancelAfterCleanup
  | success
deriving DecidableEq

/-- Observable outcome of one `run`: the emitted signals in order, the number
of temporary image files ever produced, the number still on disk on return,
and the branch that returned. -/
structure ExportOutcome where
  events : List EEvent
  created : ℕ
  remaining : ℕ
  stage : ExitStage

/-- Result of a snapshot loop with a cancellation check per iteration. -/
structure LoopOut where
  k : ℕ
  files : ℕ
  canceled : Bool

/-- A loop of snapshot steps: before each step `cancelRequested_` is loaded
(consuming one index of the schedule); each non-canceled step produces a file
iff its flag is true. -/
def snapshotLoop (cancel : ℕ → Bool) : ℕ → List Bool → LoopOut
  | k, [] => ⟨k, 0, false⟩
  | k, p :: rest =>
    if cancel k then ⟨k + 1, 0, true⟩
    else
      let out := snapshotLoop cancel (k + 1) rest
      ⟨out.k, (if p then 1 else 0) + out.files, out.canceled⟩

/-- Result of the per-label snapshot loop. -/
structure LabelLoopOut where
  k : ℕ
  files : ℕ
  events : List EEvent
  canceled : Bool

/-- The `QString("Rendered labels (%1/%2)")` message. -/
def labelMsg (p total : ℕ) : String :=
  "Rendered labels (" ++ toString p ++ "/" ++ toString total ++ ")"

/-- The per-label loop: one cancellation check per label, then three
per-label 3D snapshots, then a progress signal
`60 + 30 * processed / max 1 labelCount`. -/
def labelLoop (cancel : ℕ → Bool) (lm : ℕ → Bool) (total : ℕ) :
    ℕ → ℕ → List ℕ → LabelLoopOut
  | k, _, [] => ⟨k, 0, [], false⟩
  | k, processed, l :: rest =>
    if cancel k then ⟨k + 1, 0, [], true⟩
    else
      let fs := if lm l then 3 else 0
      let p1 := processed + 1
      let ev := EEvent.progressEv (60 + 30 * (p1 : ℤ) / (max 1 total : ℤ))
        (labelMsg p1 total)
      let out := labelLoop cancel lm total (k + 1) p1 rest
      ⟨out.k, fs + out.files, ev :: out.events, out.canceled⟩

/-- A loop that only performs cancellation checks (the PDF drawing loops). -/
def checkLoop (cancel : ℕ → Bool) : ℕ → ℕ → ℕ × Bool
  | k, 0 => (k, false)
  | k, n + 1 =>
    if cancel k then (k + 1, true)
    else checkLoop cancel (k + 1) n

/-- The 2D central-slice loop of `run` (three snapshot calls, one
cancellation check each, a file produced iff an MRI is loaded). -/
def sliceLoopOut (env : ExportEnv) (cancel : ℕ → Bool) : LoopOut :=
  snapshotLoop cancel 0 [env.mriLoaded, env.mriLoaded, env.mriLoaded]

/-- The 3D overview loop of `run`, executed only when a mask is loaded. -/
def overviewLoopOut (env : ExportEnv) (cancel : ℕ → Bool) : LoopOut :=
  if env.maskLoaded then
    snapshotLoop cancel (sliceLoopOut env cancel).k
      [env.meshNonempty, env.meshNonempty, env.meshNonempty]
  else ⟨(sliceLoopOut env cancel).k, 0, false⟩

/-- The per-label snapshot loop of `run`. -/
def perLabelLoopOut (env : ExportEnv) (cancel : ℕ → Bool) : LabelLoopOut :=
  labelLoop cancel env.labelMeshNonempty env.labels.length
    (overviewLoopOut env cancel).k 0 env.labels

/-- Files appended to `tempImages` (central slices + 3D overviews). -/
def tempImagesCount (env : ExportEnv) (cancel : ℕ → Bool) : ℕ :=
  (sliceLoopOut env cancel).files + (overviewLoopOut env cancel).files

/-- All temporary files produced (`tempImages` plus `perLabelImages`). -/
def createdCount (env : ExportEnv) (cancel : ℕ → Bool) : ℕ :=
  tempImagesCount env cancel + (perLabelLoopOut env cancel).files

/-- Progress signals emitted up to the end of the per-label loop. -/
def labelStageEvents (env : ExportEnv) (cancel : ℕ → Bool) : List EEvent :=
  [.progressEv 5 "Preparing slices...",
   .progressEv 30 "Preparing 3D overview snapshots...",
   .progressEv 60 "Collecting per-label 3D snapshots and volumes..."]
    ++ (perLabelLoopOut env cancel).events

/-- Progress signals emitted up to the start of PDF assembly. -/
def assemblyEvents (env : ExportEnv) (cancel : ℕ → Bool) : List EEvent :=
  labelStageEvents env cancel ++ [.progressEv 85 "Assembling PDF..."]

/-- The cancellation checks of the 2D-image drawing loop (one per entry of
`tempImages`). -/
def drawChecks (env : ExportEnv) (cancel : ℕ → Bool) : ℕ × Bool :=
  checkLoop cancel (perLabelLoopOut env cancel).k (tempImagesCount env cancel)

/-- The cancellation checks of the per-label page loop (one per label). -/
def pageChecks (env : ExportEnv) (cancel : ℕ → Bool) : ℕ × Bool :=
  checkLoop cancel (drawChecks env cancel).1 env.labels.length

/-- Embedding of `ExportWorker::run`.  `cancel k` is the value returned by
the k-th `cancelRequested_.load()` in program order.  Every early-cancel
branch emits the terminal canceled report and returns with the produced temp
files still on disk; only the full path reaches the `QFile::remove` cleanup,
after which one final check may still report canceled (with no files left). -/
def exportRun (env : ExportEnv) (cancel : ℕ → Bool) : ExportOutcome :=
  if env.coreAvailable = false then
    ⟨[.finishedEv false "No core available"], 0, 0, .noCore⟩
  else if (sliceLoopOut env cancel).canceled then
    ⟨[EEvent.progressEv 5 "Preparing slices..."]
        ++ [.finishedEv false "Export canceled"],
      (sliceLoopOut env cancel).files, (sliceLoopOut env cancel).files,
      .cancelBeforeCleanup⟩
  else if (overviewLoopOut env cancel).canceled then
    ⟨[EEvent.progressEv 5 "Preparing slices...",
        .progressEv 30 "Preparing 3D overview snapshots..."]
        ++ [.finishedEv false "Export canceled"],
      tempImagesCount env cancel, tempImagesCount env cancel,
      .cancelBeforeCleanup⟩
  else if (perLabelLoopOut env cancel).canceled then
    ⟨labelStageEvents env cancel ++ [.finishedEv false "Export canceled"],
      createdCount env cancel, createdCount env cancel, .cancelBeforeCleanup⟩
  else if env.pdfOk = false then
    ⟨assemblyEvents env cancel
        ++ [.finishedEv false "Failed to open PDF writer for output"],
      createdCount env cancel, createdCount env cancel, .pdfFail⟩
  else if (drawChecks env cancel).2 then
    ⟨assemblyEvents env cancel ++ [.finishedEv false "Export canceled"],
      createdCount env cancel, createdCount env cancel, .cancelBeforeCleanup⟩
  else if (pageChecks env cancel).2 then
    ⟨assemblyEvents env cancel ++ [.finishedEv false "Export canceled"],
      createdCount env cancel, createdCount env cancel, .cancelBeforeCleanup⟩
  else if cancel (pageChecks env cancel).1 then
    ⟨assemblyEvents env cancel ++ [.finishedEv false "Export canceled"],
      createdCount env cancel, 0, .cancelAfterCleanup⟩
  else
    ⟨assemblyEvents env cancel
        ++ [.progressEv 100 "PDF generated", .finishedEv true "Exported report"],
      createdCount env cancel, 0, .success⟩
/-- Export environment with an MRI loaded, no mask and no labels. -/
def cancelEnvDemo : ExportEnv :=
  { coreAvailable := true, mriLoaded := true, maskLoaded := false
    meshNonempty := false, labels := [], labelMeshNonempty := fun _ => false
    pdfOk := true }

/-- A cancellation request that becomes visible after the first check. -/
def cancelAfterFirstCheck : ℕ → Bool := fun k => decide (1 ≤ k)

/-- C6 counterexample: with an MRI loaded and the cancel flag raised after
the first checkpoint, the worker has already produced one temporary slice
image, and it delivers the terminal canceled report with that file still on
disk (remaining = 1 ≠ 0) — the early-cancel returns in the source skip the
`QFile::remove` cleanup. -/
theorem exportRun_cancel_counterexample :
    (exportRun cancelEnvDemo cancelAfterFirstCheck).events
      = [.progressEv 5 "Preparing slices...", .finishedEv false "Export canceled"]
    ∧ (exportRun cancelEnvDemo cancelAfterFirstCheck).created = 1
    ∧ (exportRun cancelEnvDemo cancelAfterFirstCheck).remaining = 1 := by
  refine ⟨rfl, rfl, rfl⟩

/-- Every temporary file produced by a run is deleted before return only on
the paths that reach the cleanup loop; an early-cancel return keeps them all. -/
def cleanupInvariant (o : ExportOutcome) : Prop :=
  (o.stage = ExitStage.cancelAfterCleanup →
    o.remaining = 0
    ∧ o.events.getLast? = some (.finishedEv false "Export canceled"))
  ∧ (o.stage = ExitStage.cancelBeforeCleanup →
    o.remaining = o.created
    ∧ o.events.getLast? = some (.finishedEv false "Export canceled"))
  ∧ (o.stage = ExitStage.success → o.remaining = 0)

/-- C6 amended: partial artifacts are discarded before the terminal canceled
report only when the cancellation is first observed at the very last
checkpoint, after PDF assembly and the temp-file cleanup; a cancellation
observed at any earlier checkpoint is reported with every already-produced
temporary file still on disk (nothing is deleted), and only the successful
and post-cleanup-cancel paths end with no temp files remaining. -/
theorem exportRun_cancel_cleanup (env : ExportEnv) (cancel : ℕ → Bool) :
    cleanupInvariant (exportRun env cancel) := by
  have hlast : ∀ (l : List EEvent) (e : EEvent), (l ++ [e]).getLast? = some e := by
    intro l e
    rw [List.getLast?_append_cons]
    rfl
  unfold exportRun
  repeat' split
  all_goals
    refine ⟨?_, ?_, ?_⟩ <;> intro h <;>
      first
        | exact ⟨rfl, hlast _ _⟩
        | rfl
        | simp at h

/-- Witness for C6's amended theorem: on the demo environment, a cancellation
first observed at the final checkpoint (index 6, after cleanup) ends with no
files, while one observed at the first checkpoint ends with all produced
files still on disk; both end with the terminal canceled report. -/
theorem exportRun_cancel_cleanup_witness :
    ((exportRun cancelEnvDemo (fun k => decide (6 ≤ k))).remaining = 0
      ∧ (exportRun cancelEnvDemo (fun k => decide (6 ≤ k))).events.getLast?
          = some (.finishedEv false "Export canceled"))
    ∧ ((exportRun cancelEnvDemo (fun _ => true)).remaining
          = (exportRun cancelEnvDemo (fun _ => true)).created
      ∧ (exportRun cancelEnvDemo (fun _ => true)).events.getLast?
          = some (.finishedEv false "Export canceled")) :=
  ⟨(exportRun_cancel_cleanup cancelEnvDemo (fun k => decide (6 ≤ k))).1 rfl,
   (exportRun_cancel_cleanup cancelEnvDemo (fun _ => true)).2.1 rfl⟩

/-! ## Export start gating (MainWindow::onExportReportClicked) -/

/-- The slice of `MainWindow` state that gates starting an export: whether a
`ViewerCore` exists, the current `exportWorker_` handle (worker ids stand in
for `ExportWorker*` pointers; `none` = `nullptr`) and the two buttons. -/
structure WindowExportState where
  coreLoaded : Bool
  exportWorker : Option ℕ
  btnExportEnabled : Bool
  btnCancelEnabled : Bool
deriving DecidableEq

/-- What `onExportReportClicked` did. -/
inductive StartOutcome
  | noCore
  | dialogCanceled
  | alreadyRunning
  | started (worker : ℕ)
deriving DecidableEq

/-- Embedding of `MainWindow::onExportReportClicked`: refuse without a core;
refuse silently when the save dialog was canceled; refuse with the
already-running warning when `exportWorker_` is non-null (touching nothing);
otherwise install a fresh worker, toggle the buttons and start it. -/
def onExportReportClicked (st : WindowExportState) (filepath : Option String)
    (freshWorker : ℕ) : WindowExportState × StartOutcome :=
  if st.coreLoaded = false then (st, .noCore)
  else
    match filepath with
    | none => (st, .dialogCanceled)
    | some _ =>
      match st.exportWorker with
      | some _ => (st, .alreadyRunning)
      | none =>
        ({ st with exportWorker := some freshWorker,
                   btnExportEnabled := false, btnCancelEnabled := true },
         .started freshWorker)

/-- C7: starting an export while one of the same category is already running
fails immediately with the already-running refusal, does not create or start
a second worker, and leaves the running export (and the whole window state)
untouched. -/
theorem onExportReportClicked_alreadyRunning (st : WindowExportState)
    (fp : String) (freshWorker w : ℕ)
    (hcore : st.coreLoaded = true) (hrun : st.exportWorker = some w) :
    onExportReportClicked st (some fp) freshWorker = (st, .alreadyRunning)
    ∧ (onExportReportClicked st (some fp) freshWorker).1.exportWorker = some w
    ∧ ∀ w2 : ℕ,
        (onExportReportClicked st (some fp) freshWorker).2 ≠ .started w2 := by
  have hmain : onExportReportClicked st (some fp) freshWorker
      = (st, .alreadyRunning) := by
    simp [onExportReportClicked, hcore, hrun]
  refine ⟨hmain, ?_, ?_⟩
  · rw [hmain]
    exact hrun
  · intro w2
    rw [hmain]
    simp

/-- Witness for C7: a window with core loaded and worker 0 running refuses to
start worker 1. -/
theorem onExportReportClicked_alreadyRunning_witness :
    onExportReportClicked
        { coreLoaded := true, exportWorker := some 0,
          btnExportEnabled := false, btnCancelEnabled := true }
        (some "out.pdf") 1
      = ({ coreLoaded := true, exportWorker := some 0,
           btnExportEnabled := false, btnCancelEnabled := true },
         .alreadyRunning) :=
  (onExportReportClicked_alreadyRunning _ "out.pdf" 1 0 rfl rfl).1

/-! ## Pointer navigation (MainWindow::vtkInteractorEventCallback) -/

/-- The navigation slice of `MainWindow` state: the three slice indices, the
last queued seek triplet (throttle memory), the per-view drag flag of the
callback data, and the active view for keyboard navigation. -/
structure NavState where
  idx_axial : ℤ
  idx_sagittal : ℤ
  idx_coronal : ℤ
  last_seek_x : ℤ
  last_seek_y : ℤ
  last_seek_z : ℤ
  leftDown : Bool
  activeAxis : String
deriving DecidableEq

/-- The per-component clamp `std::max(0, std::min(dim-1, v))`, applied only
when the dimension is known positive (as in the source). -/
def clampIdx (dim : ℕ) (v : ℤ) : ℤ :=
  if dim > 0 then max 0 (min ((dim : ℤ) - 1) v) else v

/-- The (newX, newY, newZ) triplet computed by the press/move handlers: start
from the current indices, overwrite the two in-plane components from the
floored pick position per view axis (0 = axial, 1 = sagittal, 2 = coronal),
then clamp each component. -/
def pickTriplet (st : NavState) (axis : ℕ) (pick : ℤ × ℤ) (dims : ℕ × ℕ × ℕ) :
    ℤ × ℤ × ℤ :=
  let raw :=
    if axis = 0 then (pick.1, pick.2, st.idx_axial)
    else if axis = 1 then (st.idx_sagittal, pick.1, pick.2)
    else if axis = 2 then (pick.1, st.idx_coronal, pick.2)
    else (st.idx_sagittal, st.idx_coronal, st.idx_axial)
  (clampIdx dims.1 raw.1, clampIdx dims.2.1 raw.2.1, clampIdx dims.2.2 raw.2.2)

/-- Embedding of the `MouseMoveEvent` branch of
`MainWindow::vtkInteractorEventCallback`.  `pick` is the picked in-plane
position (`none` when the prop picker missed or no interactor/renderer was
available).  The returned flag records whether `seekToIndices` was queued;
identical repeated triplets are suppressed. -/
def onMouseMove (st : NavState) (axis : ℕ) (pick : Option (ℤ × ℤ))
    (dims : ℕ × ℕ × ℕ) : NavState × Bool :=
  if st.leftDown = false then (st, false)
  else
    match pick with
    | none => (st, false)
    | some p =>
      let t := pickTriplet st axis p dims
      if t.1 = st.last_seek_x ∧ t.2.1 = st.last_seek_y ∧ t.2.2 = st.last_seek_z then
        (st, false)
      else
        ({ st with last_seek_x := t.1, last_seek_y := t.2.1, last_seek_z := t.2.2 },
         true)

/-- C8: pointer-move navigation while dragging is throttled.  A move whose
computed voxel triplet equals the last applied triplet is suppressed (no
state change, no seek); consequently, of two consecutive moves picking the
same position, the second never produces a navigation update. -/
theorem onMouseMove_throttle (st : NavState) (axis : ℕ) (p : ℤ × ℤ)
    (dims : ℕ × ℕ × ℕ) (hdrag : st.leftDown = true) :
    (pickTriplet st axis p dims
        = (st.last_seek_x, st.last_seek_y, st.last_seek_z) →
      onMouseMove st axis (some p) dims = (st, false))
    ∧ onMouseMove (onMouseMove st axis (some p) dims).1 axis (some p) dims
        = ((onMouseMove st axis (some p) dims).1, false) := by
  have key : ∀ s : NavState, s.leftDown = true →
      pickTriplet s axis p dims = (s.last_seek_x, s.last_seek_y, s.last_seek_z) →
      onMouseMove s axis (some p) dims = (s, false) := by
    intro s hs heq
    have h1 : (pickTriplet s axis p dims).1 = s.last_seek_x := by rw [heq]
    have h2 : (pickTriplet s axis p dims).2.1 = s.last_seek_y := by rw [heq]
    have h3 : (pickTriplet s axis p dims).2.2 = s.last_seek_z := by rw [heq]
    simp [onMouseMove, hs, h1, h2, h3]
  refine ⟨key st hdrag, ?_⟩
  by_cases hc : (pickTriplet st axis p dims).1 = st.last_seek_x
      ∧ (pickTriplet st axis p dims).2.1 = st.last_seek_y
      ∧ (pickTriplet st axis p dims).2.2 = st.last_seek_z
  · have hres : onMouseMove st axis (some p) dims = (st, false) := by
      simp [onMouseMove, hdrag, hc.1, hc.2.1, hc.2.2]
    rw [hres]
    refine key st hdrag ?_
    rcases hc with ⟨hx, hy, hz⟩
    rcases hpt : pickTriplet st axis p dims with ⟨a, b, c⟩
    rw [hpt] at hx hy hz
    simp at hx hy hz
    rw [hx, hy, hz]
  · have hres : onMouseMove st axis (some p) dims =
        ({ st with last_seek_x := (pickTriplet st axis p dims).1,
                   last_seek_y := (pickTriplet st axis p dims).2.1,
                   last_seek_z := (pickTriplet st axis p dims).2.2 }, true) := by
      simp only [onMouseMove, hdrag]
      simp [hc]
    rw [hres]
    refine key _ hdrag ?_
    rfl

/-- A dragging navigation state whose throttle memory already holds the
triplet picked below. -/
def demoNavState : NavState :=
  { idx_axial := 5, idx_sagittal := 5, idx_coronal := 5
    last_seek_x := 2, last_seek_y := 3, last_seek_z := 5
    leftDown := true, activeAxis := "axial" }

/-- Witness for C8: on the axial view of a 10×10×10 volume, a move picking
(2,3) — which maps to the already-applied triplet (2,3,5) — is suppressed. -/
theorem onMouseMove_throttle_witness :
    onMouseMove demoNavState 0 (some (2, 3)) (10, 10, 10) = (demoNavState, false) :=
  (onMouseMove_throttle demoNavState 0 (2, 3) (10, 10, 10) rfl).1 (by decide)

/-- `INT_MAX`, the fallback upper bound when a dimension is not positive. -/
def intMax : ℤ := 2147483647

/-- Embedding of the wheel branch of `vtkInteractorEventCallback`: `axis` is
the view that received the notch (0 = axial owning Z, 1 = sagittal owning X,
2 = coronal owning Y), `dir` is +1 for a forward notch and −1 for a backward
one, `dims` are the MRI dimensions ((0,0,0) with none loaded).  Only the
receiving view's own index is recomputed, clamped to `[0, dim-1]`. -/
def onMouseWheel (st : NavState) (axis : ℕ) (dir : ℤ) (dims : ℕ × ℕ × ℕ) :
    NavState :=
  if axis = 0 then
    let maxv : ℤ := if dims.2.2 > 0 then (dims.2.2 : ℤ) - 1 else intMax
    { st with idx_axial := max 0 (min maxv (st.idx_axial + dir)) }
  else if axis = 1 then
    let maxv : ℤ := if dims.1 > 0 then (dims.1 : ℤ) - 1 else intMax
    { st with idx_sagittal := max 0 (min maxv (st.idx_sagittal + dir)) }
  else if axis = 2 then
    let maxv : ℤ := if dims.2.1 > 0 then (dims.2.1 : ℤ) - 1 else intMax
    { st with idx_coronal := max 0 (min maxv (st.idx_coronal + dir)) }
  else st

/-- C9: a wheel notch (`dir = ±1`) on a 2D view changes only that view's own
axis index — stepping it by `dir` and clamping to `[0, dim-1]` for that axis
— and leaves the other two indices of the navigation state unchanged. -/
theorem onMouseWheel_own_axis (st : NavState) (dir : ℤ) (dims : ℕ × ℕ × ℕ)
    (hdir : dir = 1 ∨ dir = -1) :
    (dims.2.2 > 0 →
      (onMouseWheel st 0 dir dims).idx_axial
          = max 0 (min ((dims.2.2 : ℤ) - 1) (st.idx_axial + dir))
      ∧ (onMouseWheel st 0 dir dims).idx_sagittal = st.idx_sagittal
      ∧ (onMouseWheel st 0 dir dims).idx_coronal = st.idx_coronal
      ∧ 0 ≤ (onMouseWheel st 0 dir dims).idx_axial
      ∧ (onMouseWheel st 0 dir dims).idx_axial ≤ (dims.2.2 : ℤ) - 1)
    ∧ (dims.1 > 0 →
      (onMouseWheel st 1 dir dims).idx_sagittal
          = max 0 (min ((dims.1 : ℤ) - 1) (st.idx_sagittal + dir))
      ∧ (onMouseWheel st 1 dir dims).idx_axial = st.idx_axial
      ∧ (onMouseWheel st 1 dir dims).idx_coronal = st.idx_coronal
      ∧ 0 ≤ (onMouseWheel st 1 dir dims).idx_sagittal
      ∧ (onMouseWheel st 1 dir dims).idx_sagittal ≤ (dims.1 : ℤ) - 1)
    ∧ (dims.2.1 > 0 →
      (onMouseWheel st 2 dir dims).idx_coronal
          = max 0 (min ((dims.2.1 : ℤ) - 1) (st.idx_coronal + dir))
      ∧ (onMouseWheel st 2 dir dims).idx_axial = st.idx_axial
      ∧ (onMouseWheel st 2 dir dims).idx_sagittal = st.idx_sagittal
      ∧ 0 ≤ (onMouseWheel st 2 dir dims).idx_coronal
      ∧ (onMouseWheel st 2 dir dims).idx_coronal ≤ (dims.2.1 : ℤ) - 1) := by
  refine ⟨?_, ?_, ?_⟩ <;> intro hpos
  · have h0 : onMouseWheel st 0 dir dims
        = { st with idx_axial := max 0 (min ((dims.2.2 : ℤ) - 1) (st.idx_axial + dir)) } := by
      simp [onMouseWheel, hpos]
    have hd : (0 : ℤ) ≤ (dims.2.2 : ℤ) - 1 := by omega
    rw [h0]
    exact ⟨rfl, rfl, rfl, le_max_left 0 _, max_le hd (min_le_left _ _)⟩
  · have h1 : onMouseWheel st 1 dir dims
        = { st with idx_sagittal := max 0 (min ((dims.1 : ℤ) - 1) (st.idx_sagittal + dir)) } := by
      simp [onMouseWheel, hpos]
    have hd : (0 : ℤ) ≤ (dims.1 : ℤ) - 1 := by omega
    rw [h1]
    exact ⟨rfl, rfl, rfl, le_max_left 0 _, max_le hd (min_le_left _ _)⟩
  · have h2 : onMouseWheel st 2 dir dims
        = { st with idx_coronal := max 0 (min ((dims.2.1 : ℤ) - 1) (st.idx_coronal + dir)) } := by
      simp [onMouseWheel, hpos]
    have hd : (0 : ℤ) ≤ (dims.2.1 : ℤ) - 1 := by omega
    rw [h2]
    exact ⟨rfl, rfl, rfl, le_max_left 0 _, max_le hd (min_le_left _ _)⟩

/-- Witness for C9: a forward notch on the axial view of a 10×12×14 volume at
indices (axial 13, sagittal 4, coronal 5) stays clamped at 13 (= dim−1) and
leaves sagittal and coronal untouched. -/
theorem onMouseWheel_own_axis_witness :
    (10 : ℕ) > 0
    ∧ (onMouseWheel
        { idx_axial := 13, idx_sagittal := 4, idx_coronal := 5
          last_seek_x := -1, last_seek_y := -1, last_seek_z := -1
          leftDown := false, activeAxis := "axial" } 1 1 (10, 12, 14)).idx_sagittal
        = max 0 (min ((10 : ℤ) - 1) (4 + 1)) :=
  ⟨by decide,
   ((onMouseWheel_own_axis
      { idx_axial := 13, idx_sagittal := 4, idx_coronal := 5
        last_seek_x := -1, last_seek_y := -1, last_seek_z := -1
        leftDown := false, activeAxis := "axial" } 1 (10, 12, 14)
      (Or.inl rfl)).2.1 (by decide)).1⟩

/-! ## Mask loading (ViewerCore::loadMask) -/

/-- Embedding of `ViewerCore::loadMask`.  The external NIfTI reader either
throws (`parsed = none`, caught and reported as failure) or yields a parsed
mask, which is installed wholesale as the current mask image.  No field of
the currently loaded volume is consulted anywhere in the function. -/
def loadMask (st : CoreState) (parsed : Option MaskImage) : CoreState × Bool :=
  match parsed with
  | none => (st, false)
  | some m => ({ st with maskImage := some m }, true)

/-- C10: `loadMask` accepts any parseable mask and installs it as the current
mask without comparing its geometry to the loaded volume: it succeeds even
when the mask grid differs from the volume grid, and its outcome is the same
in every core state — no `GeometryMismatch` condition is detected or
reported. -/
theorem loadMask_no_geometry_check (st : CoreState) (m : MaskImage)
    (vol : Volume) (hvol : st.mriImage = some vol)
    (hmismatch : m.dims ≠ vol.dims ∨ m.spacing ≠ vol.spacing) :
    loadMask st (some m) = ({ st with maskImage := some m }, true)
    ∧ (loadMask st (some m)).2 = true
    ∧ ∀ st2 : CoreState,
        (loadMask st2 (some m)).1.maskImage = some m
        ∧ (loadMask st2 (some m)).2 = true := by
  refine ⟨rfl, rfl, ?_⟩
  intro st2
  exact ⟨rfl, rfl⟩

/-- Witness for C10: loading the 3×1×1 demo mask over the loaded 4×4×4 demo
volume (dimensions differ) succeeds and installs the mask. -/
theorem loadMask_no_geometry_check_witness :
    loadMask demoVolumeState (some demoMask)
      = ({ demoVolumeState with maskImage := some demoMask }, true) :=
  (loadMask_no_geometry_check demoVolumeState demoMask demoVolume rfl
    (Or.inl (by decide))).1
